import Mathlib

/-!
Verification of the ComfyUI RunPod serverless pipeline.

Shallow embedding of the repository's Python sources:
  * `src/comfyui_client.py` — `ComfyUIClient` (readiness polling, prompt
    queuing, WebSocket wait loop, output retrieval),
  * `src/handler.py` — input validation and the serverless `handler`,
  * `src/workflow_loader.py` — workflow template parameter injection,
  * `src/storage.py` — S3 upload and presigned-URL minting.

Python dicts are embedded as association lists preserving insertion order;
exceptions as `Except`; network collaborators as explicit oracles.
-/

namespace Pipeline

/-- A JSON-style scalar value as used in job inputs and workflow node slots.
Numbers are modelled as rationals (covers Python ints and the literal 7.5). -/
inductive Value where
  | str (s : String)
  | num (q : Rat)
  | bool (b : Bool)
  deriving DecidableEq

/-- A Python dict with string keys, as an insertion-ordered association list. -/
abbrev Dict := List (String × Value)

/-- Lookup `d.get(k)`: first value stored under `k`, if any. -/
def getField : Dict → String → Option Value
  | [], _ => none
  | (k', v) :: rest, k => if k' = k then some v else getField rest k

/-- Python truthiness test `not d.get(k)` applied to an optional field:
absent keys, empty strings, zero and `False` are all falsy. -/
def falsy : Option Value → Bool
  | none => true
  | some (.str s) => s = ""
  | some (.num q) => q = 0
  | some (.bool b) => b = false

/-- Deletion `del d[k]` for every occurrence: the dict without key `k`.
Used to compare a present-but-empty field with an absent one. -/
def removeField : Dict → String → Dict
  | [], _ => []
  | (k', v) :: rest, k =>
      if k' = k then removeField rest k else (k', v) :: removeField rest k

/-! ## Execution Client wait loop (`ComfyUIClient._wait_for_completion`) -/

/-- One WebSocket frame as consumed by `_wait_for_completion`.
Structured frames carry `msg["type"]` and the fields the code reads from
`msg["data"]` (each via `.get`, hence optional); `binary` is a binary
preview frame; `unknownType` is any JSON message whose `type` is none of
`executing`/`execution_error`/`progress`. -/
inductive WsFrame where
  | binary (size : Nat)
  | executing (pid : Option String) (node : Option String)
  | executionError (pid : Option String) (nodeId : Option String) (excMsg : Option String)
  | progress (pid : Option String) (value : Nat) (maxVal : Nat)
  | unknownType (ty : Option String)
  deriving DecidableEq

/-- A terminal classification of one frame. -/
inductive Terminal where
  | complete
  | nodeError (nodeId : String) (msg : String)
  deriving DecidableEq

/-- Outcome of the wait loop: `completed` models the `return
self._fetch_outputs(prompt_id)` path, `execError` the `raise RuntimeError`
path (carrying the node id and message extracted from the event), and
`timeout` the `raise TimeoutError` path at the execution deadline. -/
inductive RunOutcome where
  | completed
  | execError (nodeId : String) (msg : String)
  | timeout
  deriving DecidableEq

/-- Classification of a single received frame inside the wait loop, from the
body of `_wait_for_completion`: `none` means the loop keeps waiting. The
defaults `"unknown"` and `"Unknown error"` are the code's `.get` fallbacks. -/
def processFrame (promptId : String) : WsFrame → Option Terminal
  | .binary _ => none
  | .executing pid node =>
      if pid = some promptId ∧ node = none then some .complete else none
  | .executionError pid nodeId excMsg =>
      if pid = some promptId then
        some (.nodeError (nodeId.getD "unknown") (excMsg.getD "Unknown error"))
      else none
  | .progress _ _ _ => none
  | .unknownType _ => none

/-- The wait loop of `_wait_for_completion` over the finite sequence of
frames delivered before the 300-second deadline; exhausting the sequence
without a terminal frame models the deadline expiring (`raise TimeoutError`). -/
def waitForCompletion (promptId : String) : List WsFrame → RunOutcome
  | [] => .timeout
  | f :: rest =>
      match processFrame promptId f with
      | some .complete => .completed
      | some (.nodeError n m) => .execError n m
      | none => waitForCompletion promptId rest

/-- Recogniser for `progress`-typed frames. -/
def isProgress : WsFrame → Bool
  | .progress _ _ _ => true
  | _ => false

/-- The `prompt_id` field of a structured event frame (`executing`,
`execution_error` or `progress`); `none` for binary or unknown frames. -/
def eventPromptId : WsFrame → Option (Option String)
  | .executing pid _ => some pid
  | .executionError pid _ _ => some pid
  | .progress pid _ _ => some pid
  | .binary _ => none
  | .unknownType _ => none

/-! ## Readiness polling (`ComfyUIClient.wait_for_ready`) -/

/-- A Python exception, as propagated across the embedded functions.
`timeoutError` is the builtin `TimeoutError`; the others record the
exception class the source raises together with `str(e)`. -/
inductive PyExc where
  | timeoutError (msg : String)
  | runtimeError (msg : String)
  | valueError (msg : String)
  | fileNotFoundError (msg : String)
  | keyError (msg : String)
  | otherExc (msg : String)
  deriving DecidableEq

/-- Message `str(e)` of an embedded exception. -/
def excMessage : PyExc → String
  | .timeoutError m => m
  | .runtimeError m => m
  | .valueError m => m
  | .fileNotFoundError m => m
  | .keyError m => m
  | .otherExc m => m

/-- Test `isinstance(e, TimeoutError)`. -/
def isTimeoutExc : PyExc → Bool
  | .timeoutError _ => true
  | _ => false

/-- Outcome of one `requests.get(f"{base_url}/system_stats", timeout=5)`
probe: an HTTP 200, a non-200 response, a `requests.ConnectionError`, or
any other exception (e.g. a read timeout, which is not a ConnectionError). -/
inductive ProbeResult where
  | ok200
  | badStatus (code : Nat)
  | connError
  | raised (msg : String)
  deriving DecidableEq

/-- The polling loop of `wait_for_ready`: while `elapsed < timeout`, the
`i`-th probe is made; HTTP 200 returns `true` at once; a non-200 response
or a `ConnectionError` is followed by `time.sleep(2)` and another round; any
other exception escapes the `except requests.ConnectionError` clause and
propagates. When the deadline is reached the function returns `false`. -/
def waitForReadyGo (probe : Nat → ProbeResult) (i elapsed timeout : Nat) :
    Except PyExc Bool :=
  if elapsed < timeout then
    match probe i with
    | .ok200 => .ok true
    | .badStatus _ => waitForReadyGo probe (i + 1) (elapsed + 2) timeout
    | .connError => waitForReadyGo probe (i + 1) (elapsed + 2) timeout
    | .raised m => .error (.otherExc m)
  else
    .ok false
termination_by timeout - elapsed
decreasing_by
  omega

/-- Embeds `ComfyUIClient.wait_for_ready(timeout)`, with the sequence of probe
outcomes supplied as an oracle. -/
def wait_for_ready (probe : Nat → ProbeResult) (timeout : Nat) : Except PyExc Bool :=
  waitForReadyGo probe 0 0 timeout

/-! ## Artifact publishing (`StorageClient.upload`) -/

/-- The object-storage backend as seen by `StorageClient.upload`: a
`put_object` call that may fail with an exception, and
`generate_presigned_url`, which mints a URL from the key alone. -/
structure StorageBackend where
  putObject : String → List Nat → Except PyExc Unit
  presignedUrl : String → String

/-- Embeds `StorageClient.upload(data, key, ...)`: perform the `put_object` write
first; only if it returns normally, mint and return the presigned URL.
A failing write propagates as the raised exception. -/
def upload (s : StorageBackend) (data : List Nat) (key : String) :
    Except PyExc String :=
  match s.putObject key data with
  | .error e => .error e
  | .ok _ => .ok (s.presignedUrl key)

/-! ## Client identity (`ComfyUIClient.__init__` and per-job construction) -/

/-- The state of a fresh-identifier supply modelling `uuid.uuid4()`: the
only property used is that successive draws return distinct identifiers. -/
structure UuidGen where
  counter : Nat
  deriving DecidableEq

/-- Draw a fresh identifier and advance the supply. -/
def freshUuid (g : UuidGen) : Nat × UuidGen :=
  (g.counter, ⟨g.counter + 1⟩)

/-- State of a `ComfyUIClient` instance set in `__init__`: the base/ws URLs and
the `client_id` drawn from `uuid.uuid4()` at construction time. -/
structure ComfyUIClient where
  base_url : String
  ws_url : String
  client_id : Nat
  deriving DecidableEq

/-- Constructor `ComfyUIClient(host, port)`: builds the URLs and generates `client_id`
once, at construction. -/
def mkComfyUIClient (host : String) (port : Nat) (g : UuidGen) :
    ComfyUIClient × UuidGen :=
  let (u, g') := freshUuid g
  ({ base_url := "http://" ++ host ++ ":" ++ toString port,
     ws_url := "ws://" ++ host ++ ":" ++ toString port ++ "/ws",
     client_id := u }, g')

/-- The client the handler builds for one job: `handler` runs
`client = ComfyUIClient(port=COMFYUI_PORT)` anew on every invocation. -/
def handlerJobClient (g : UuidGen) : ComfyUIClient × UuidGen :=
  mkComfyUIClient "127.0.0.1" 8188 g

/-- The `client_id` field of the `/prompt` queue payload built by
`_queue_prompt`: it is `self.client_id`. -/
def queuePayloadClientId (c : ComfyUIClient) : Nat := c.client_id

/-- The `clientId` query parameter of the WebSocket URL opened by
`execute_workflow`: it is `self.client_id`. -/
def wsConnectionClientId (c : ComfyUIClient) : Nat := c.client_id

/-! ## Template parameter injection (`WorkflowLoader._inject_image_gen`) -/

/-- One node of a ComfyUI workflow graph: a class tag plus an `inputs` dict. -/
structure WorkflowNode where
  class_type : String
  inputs : Dict
  deriving DecidableEq

/-- A workflow graph: a dict from node identifier to node. -/
abbrev Workflow := List (String × WorkflowNode)

/-- Python dict assignment `d[k] = v`: replace the value at an existing key
in place, otherwise append the new key at the end. -/
def setKV : Dict → String → Value → Dict
  | [], k, v => [(k, v)]
  | (k', v') :: rest, k, v =>
      if k' = k then (k', v) :: rest else (k', v') :: setKV rest k v

/-- Lookup `workflow.get(nodeId)`. -/
def getNode : Workflow → String → Option WorkflowNode
  | [], _ => none
  | (n, node) :: rest, nodeId => if n = nodeId then some node else getNode rest nodeId

/-- Membership test `nodeId in workflow`. -/
def containsNode (wf : Workflow) (nodeId : String) : Bool :=
  (getNode wf nodeId).isSome

/-- The guarded slot write `if nodeId in workflow:
workflow[nodeId]["inputs"][k] = v` — a no-op when the node is absent
(the loader's lenient-merge policy). -/
def setNodeInput : Workflow → String → String → Value → Workflow
  | [], _, _, _ => []
  | (n, node) :: rest, nodeId, k, v =>
      if n = nodeId then (n, { node with inputs := setKV node.inputs k v }) :: rest
      else (n, node) :: setNodeInput rest nodeId k v

/-- Read back one input slot: `workflow[nodeId]["inputs"].get(k)`. -/
def getNodeInput (wf : Workflow) (nodeId k : String) : Option Value :=
  match getNode wf nodeId with
  | some node => getField node.inputs k
  | none => none

/-- Embeds `WorkflowLoader._inject_image_gen(workflow, params)`. `randSeed` stands
for the value drawn by `random.randint(0, 2**32 - 1)`, used only when the
request carries no `seed`. A missing `prompt` raises `KeyError` (the code
subscripts `params["prompt"]`); every other field falls back to the coded
default. Slots are written into nodes `3`, `4`, `5` and `6` when present. -/
def injectImageGen (randSeed : Nat) (workflow : Workflow) (params : Dict) :
    Except PyExc Workflow :=
  match getField params "prompt" with
  | none => .error (.keyError "prompt")
  | some prompt =>
      let negative := (getField params "negative_prompt").getD
        (.str "blurry, low quality, watermark, text")
      let width := (getField params "width").getD (.num 1280)
      let height := (getField params "height").getD (.num 720)
      let seed := (getField params "seed").getD (.num (randSeed : Rat))
      let steps := (getField params "steps").getD (.num 25)
      let cfg_scale := (getField params "cfg_scale").getD (.num (15 / 2 : Rat))
      let w1 := setNodeInput workflow "3" "text" prompt
      let w2 := setNodeInput w1 "4" "text" negative
      let w3 := setNodeInput w2 "5" "width" width
      let w4 := setNodeInput w3 "5" "height" height
      let w5 := setNodeInput w4 "5" "batch_size" (.num 1)
      let w6 := setNodeInput w5 "6" "seed" seed
      let w7 := setNodeInput w6 "6" "steps" steps
      let w8 := setNodeInput w7 "6" "cfg" cfg_scale
      .ok w8

/-! ## Job Orchestrator (`handler.py`) -/

/-- A value stored in a result envelope. -/
inductive EnvVal where
  | str (s : String)
  | strList (l : List String)
  deriving DecidableEq

/-- The dict returned by `handler`. -/
abbrev Envelope := List (String × EnvVal)

/-- Lookup `envelope.get(k)`. -/
def getEnvField : Envelope → String → Option EnvVal
  | [], _ => none
  | (k', v) :: rest, k => if k' = k then some v else getEnvField rest k

/-- Embeds `validate_input(job_input)` from `handler.py`: the `(bool, message)`
pair. Field checks go through Python truthiness (`not job_input.get(...)`),
so empty strings count as missing. The invalid-type message is the
f-string over the valid set; its exact text is a representative here and no
theorem depends on it. -/
def validate_input (job_input : Dict) : Bool × String :=
  let workflow_type := getField job_input "workflow_type"
  if falsy workflow_type then
    (false, "Missing required field: workflow_type")
  else if ¬ (workflow_type = some (.str "image_gen") ∨
             workflow_type = some (.str "face_swap")) then
    (false, "Invalid workflow_type. Must be one of: image_gen, face_swap")
  else if workflow_type = some (.str "image_gen") ∧
      falsy (getField job_input "prompt") then
    (false, "image_gen requires \x27prompt\x27 field")
  else if workflow_type = some (.str "face_swap") ∧
      falsy (getField job_input "source_image") then
    (false, "face_swap requires \x27source_image\x27 field")
  else if workflow_type = some (.str "face_swap") ∧
      falsy (getField job_input "target_image") then
    (false, "face_swap requires \x27target_image\x27 field")
  else
    (true, "")

/-- An observable side effect of one `handler` run on its collaborators. -/
inductive Effect where
  | loadTemplate (workflow_type : String)
  | executeWorkflow
  | uploadArtifact (key : String)
  deriving DecidableEq

/-- The collaborators `handler` drives, as result oracles:
`WorkflowLoader.load`, `ComfyUIClient.execute_workflow` and
`StorageClient.upload`. Output images are byte strings. -/
structure HandlerEnv where
  loadResult : String → Dict → Except PyExc Workflow
  execResult : Workflow → Except PyExc (List (List Nat))
  uploadResult : List Nat → String → Except PyExc String

/-- One inbound job: `job["id"]` (after the `.get("id", "unknown")`
default) and `job["input"]` (after the `.get` with an empty-dict default default). -/
structure Job where
  id : String
  input : Dict

/-- The upload loop of `handler`: for each output image in order, build
`outputs/{job_id}/{workflow_type}_{i}.png` and call `storage.upload`;
the first raised exception aborts the loop and propagates. Also returns
the uploads attempted. -/
def uploadAll (env : HandlerEnv) (job_id workflow_type : String) :
    List (List Nat) → Nat → Except PyExc (List String) × List Effect
  | [], _ => (.ok [], [])
  | image :: rest, i =>
      let key := "outputs/" ++ job_id ++ "/" ++ workflow_type ++ "_"
        ++ toString i ++ ".png"
      match env.uploadResult image key with
      | .error e => (.error e, [.uploadArtifact key])
      | .ok url =>
          match uploadAll env job_id workflow_type rest (i + 1) with
          | (.error e, effs) => (.error e, .uploadArtifact key :: effs)
          | (.ok urls, effs) => (.ok (url :: urls), .uploadArtifact key :: effs)

/-- The envelope produced by the `except` clauses of `handler`:
`TimeoutError` maps to the fixed timed-out message, anything else to
`str(e)`. -/
def exceptionEnvelope (e : PyExc) : Envelope :=
  if isTimeoutExc e then [("error", .str "Workflow execution timed out")]
  else [("error", .str (excMessage e))]

/-- Field `job_input["workflow_type"]` read back after successful validation:
validation guarantees the field is a non-empty known string, so the
fallback arm is unreachable. -/
def extractWorkflowType (job_input : Dict) : String :=
  match getField job_input "workflow_type" with
  | some (.str s) => s
  | _ => ""

/-- Embeds `handler(job)` from `handler.py`, with its collaborators as oracles:
validate, then load, execute, check for empty output, upload, and assemble
the success envelope; every raised exception is caught at this boundary
and converted to an error envelope. The second component records the
side effects performed on the collaborators. -/
def handler (env : HandlerEnv) (job : Job) : Envelope × List Effect :=
  match validate_input job.input with
  | (false, error) => ([("error", .str error)], [])
  | (true, _) =>
      match env.loadResult (extractWorkflowType job.input) job.input with
      | .error e => (exceptionEnvelope e, [.loadTemplate (extractWorkflowType job.input)])
      | .ok workflow =>
          match env.execResult workflow with
          | .error e =>
              (exceptionEnvelope e,
               [.loadTemplate (extractWorkflowType job.input), .executeWorkflow])
          | .ok output_images =>
              if output_images.isEmpty then
                ([("error", .str "Workflow produced no output images")],
                 [.loadTemplate (extractWorkflowType job.input), .executeWorkflow])
              else
                match uploadAll env job.id (extractWorkflowType job.input) output_images 0 with
                | (.error e, effs) =>
                    (exceptionEnvelope e,
                     .loadTemplate (extractWorkflowType job.input) :: .executeWorkflow :: effs)
                | (.ok urls, effs) =>
                    ([("status", .str "success"),
                      ("output_urls", .strList urls),
                      ("workflow_type", .str (extractWorkflowType job.input)),
                      ("job_id", .str job.id)],
                     .loadTemplate (extractWorkflowType job.input) :: .executeWorkflow :: effs)

/-- A stub environment whose collaborators all succeed; used to exhibit
concrete handler runs. -/
def stubHandlerEnv : HandlerEnv where
  loadResult := fun _ _ => .ok []
  execResult := fun _ => .ok [[0]]
  uploadResult := fun _ key => .ok ("https://bucket/" ++ key)

end Pipeline

namespace Pipeline

/-- Claim C1: a stream that delivers only `progress` frames before the
deadline — whatever their `prompt_id`, `value` or `max` — makes the wait
loop time out: the outcome is `timeout` (the `TimeoutError` raise), never
`completed`, so progress events are never read as completion signals. -/
theorem progress_only_stream_times_out
    (promptId : String) (frames : List WsFrame)
    (h : ∀ f ∈ frames, isProgress f = true) :
    waitForCompletion promptId frames = .timeout ∧
      waitForCompletion promptId frames ≠ .completed := by
  have key : waitForCompletion promptId frames = .timeout := by
    induction frames with
    | nil => rfl
    | cons f rest ih =>
        have hf : isProgress f = true := h f (List.mem_cons_self f rest)
        have hrest : ∀ g ∈ rest, isProgress g = true :=
          fun g hg => h g (List.mem_cons_of_mem f hg)
        cases f with
        | progress pid v m =>
            simpa [waitForCompletion, processFrame] using ih hrest
        | binary n => simp [isProgress] at hf
        | executing pid node => simp [isProgress] at hf
        | executionError pid nid em => simp [isProgress] at hf
        | unknownType ty => simp [isProgress] at hf
  exact ⟨key, by simp [key]⟩

/-- Witness for C1: a concrete all-progress stream (including a frame with
`value = max`) for the job's own prompt id still ends in `timeout`. -/
theorem progress_only_stream_times_out_witness :
    waitForCompletion "p1"
        [WsFrame.progress (some "p1") 5 20,
         WsFrame.progress (some "p1") 20 20] = RunOutcome.timeout ∧
      waitForCompletion "p1"
        [WsFrame.progress (some "p1") 5 20,
         WsFrame.progress (some "p1") 20 20] ≠ RunOutcome.completed :=
  progress_only_stream_times_out "p1" _ (by decide)

/-- Claim C2: if an `execution_error` frame whose `prompt_id` matches this
job's correlation key is delivered while the loop is still waiting (every
earlier frame was non-terminal), the loop fails with an execution error
carrying exactly the node id and message taken from that event. -/
theorem execution_error_fails_with_node_and_message
    (promptId nodeId excMsg : String) (pre rest : List WsFrame)
    (h : ∀ f ∈ pre, processFrame promptId f = none) :
    waitForCompletion promptId
        (pre ++ WsFrame.executionError (some promptId) (some nodeId) (some excMsg) :: rest)
      = .execError nodeId excMsg := by
  induction pre with
  | nil => simp [waitForCompletion, processFrame, Option.getD]
  | cons f fs ih =>
      have hf : processFrame promptId f = none := h f (List.mem_cons_self f fs)
      have hfs : ∀ g ∈ fs, processFrame promptId g = none :=
        fun g hg => h g (List.mem_cons_of_mem f hg)
      simp [waitForCompletion, hf, ih hfs]

/-- Witness for C2: the spec's stub — progress first, then
`ExecutionError` with `prompt_id` matching, `node_id="7"`,
`message="bad seed"` — yields `execError "7" "bad seed"`. -/
theorem execution_error_fails_with_node_and_message_witness :
    waitForCompletion "pA"
        ([WsFrame.progress (some "pA") 1 20] ++
          WsFrame.executionError (some "pA") (some "7") (some "bad seed") ::
            [WsFrame.progress (some "pA") 2 20])
      = RunOutcome.execError "7" "bad seed" :=
  execution_error_fails_with_node_and_message "pA" "7" "bad seed" _ _ (by decide)

/-- Claim C3: a structured event (`executing`, `execution_error` or
`progress`) whose `prompt_id` differs from this job's correlation key is
ignored: it is classified as non-terminal and the wait loop's result over
the remaining stream is unchanged, so it never causes completion, failure
or output retrieval. -/
theorem mismatched_prompt_id_event_is_ignored
    (promptId : String) (q : Option String) (f : WsFrame) (rest : List WsFrame)
    (hpid : eventPromptId f = some q) (hne : q ≠ some promptId) :
    processFrame promptId f = none ∧
      waitForCompletion promptId (f :: rest) = waitForCompletion promptId rest := by
  have hskip : processFrame promptId f = none := by
    cases f with
    | executing pid node =>
        have : pid = q := by simpa [eventPromptId] using hpid
        subst this
        simp [processFrame, hne]
    | executionError pid nid em =>
        have : pid = q := by simpa [eventPromptId] using hpid
        subst this
        simp [processFrame, hne]
    | progress pid v m => simp [processFrame]
    | binary n => simp [eventPromptId] at hpid
    | unknownType ty => simp [eventPromptId] at hpid
  exact ⟨hskip, by simp [waitForCompletion, hskip]⟩

/-- Witness for C3: an `executing{node=null}` terminal-shaped event for a
different prompt id does not complete this job's wait; the loop result
equals the result on the rest of the stream (here: timeout). -/
theorem mismatched_prompt_id_event_is_ignored_witness :
    processFrame "mine" (WsFrame.executing (some "other") none) = none ∧
      waitForCompletion "mine"
          (WsFrame.executing (some "other") none :: [WsFrame.progress (some "mine") 3 9])
        = waitForCompletion "mine" [WsFrame.progress (some "mine") 3 9] :=
  mismatched_prompt_id_event_is_ignored "mine" (some "other")
    (WsFrame.executing (some "other") none) [WsFrame.progress (some "mine") 3 9]
    rfl (by decide)

/-- Claim C7: `upload` returns a presigned URL only when the `put_object`
write for that key returned normally; when the write fails, the failure
propagates unchanged and no URL is produced for the key. -/
theorem upload_url_only_after_successful_put
    (s : StorageBackend) (data : List Nat) (key : String) :
    (∀ url, upload s data key = .ok url →
        s.putObject key data = .ok () ∧ url = s.presignedUrl key) ∧
      (∀ e, s.putObject key data = .error e → upload s data key = .error e) := by
  constructor
  · intro url hok
    cases hput : s.putObject key data with
    | error e => simp [upload, hput] at hok
    | ok u =>
        cases u
        refine ⟨rfl, ?_⟩
        simpa [upload, hput] using hok.symm
  · intro e herr
    simp [upload, herr]

/-- Witness for C7: on a backend that rejects every write, `upload`
propagates the write failure for a concrete key and payload. -/
theorem upload_url_only_after_successful_put_witness :
    upload
        { putObject := fun _ _ => Except.error (PyExc.runtimeError "put failed"),
          presignedUrl := fun k => "https://bucket/" ++ k }
        [1, 2, 3] "outputs/job1/image_gen_0.png"
      = Except.error (PyExc.runtimeError "put failed") :=
  (upload_url_only_after_successful_put
      { putObject := fun _ _ => Except.error (PyExc.runtimeError "put failed"),
        presignedUrl := fun k => "https://bucket/" ++ k }
      [1, 2, 3] "outputs/job1/image_gen_0.png").2
    (PyExc.runtimeError "put failed") rfl

/-- Counterexample to claim C8: two consecutive jobs handled by the same
worker process do not present the same `client_id` — `handler` constructs a
fresh `ComfyUIClient` (and hence draws a fresh `uuid4` value) per job.
Starting from supply state 0, job 1 presents id 0 and job 2 presents id 1. -/
theorem client_id_not_shared_across_jobs :
    (handlerJobClient ⟨0⟩).1.client_id ≠
      (handlerJobClient (handlerJobClient ⟨0⟩).2).1.client_id := by
  decide

/-- Claim C8 (amended): `client_id` is generated once per `ComfyUIClient`
instance and presented unchanged to both the queue endpoint and the
streaming connection within one job, but the handler builds a new client
per job, so successive jobs present distinct `client_id`s. -/
theorem client_id_per_instance_fresh_per_job (g : UuidGen) :
    queuePayloadClientId (handlerJobClient g).1 = (handlerJobClient g).1.client_id ∧
      wsConnectionClientId (handlerJobClient g).1 = (handlerJobClient g).1.client_id ∧
      (handlerJobClient g).1.client_id ≠
        (handlerJobClient (handlerJobClient g).2).1.client_id := by
  refine ⟨rfl, rfl, ?_⟩
  simp [handlerJobClient, mkComfyUIClient, freshUuid]

/-- Counterexample to claim C9: with no successful probe before the
120-second deadline, `wait_for_ready` --- instead of returning `false` ---
propagates the probe's exception whenever that exception is not a
`requests.ConnectionError` (the only class the `except` clause catches):
here every probe raises a read timeout and the call raises. -/
theorem wait_for_ready_can_raise :
    wait_for_ready (fun _ => ProbeResult.raised "Read timed out.") 120
      = Except.error (PyExc.otherExc "Read timed out.") ∧
      wait_for_ready (fun _ => ProbeResult.raised "Read timed out.") 120
        ≠ Except.ok false := by
  constructor
  · rw [wait_for_ready, waitForReadyGo]
    simp
  · rw [wait_for_ready, waitForReadyGo]
    simp

/-- Starting the polling loop at probe index `i` after `elapsed` seconds:
if the next `j` probes all fail benignly (non-200 status or
`ConnectionError`) and probe `i + j` answers HTTP 200 while the 2-second
cadence still leaves it before the deadline, the loop returns `true`. -/
theorem waitForReadyGo_true_at_first_ok (probe : Nat → ProbeResult) (timeout : Nat) :
    ∀ j i elapsed,
      (∀ m, m < j → probe (i + m) = .connError ∨ ∃ c, probe (i + m) = .badStatus c) →
      probe (i + j) = .ok200 → elapsed + 2 * j < timeout →
      waitForReadyGo probe i elapsed timeout = .ok true := by
  intro j
  induction j with
  | zero =>
      intro i elapsed hpre hok hlt
      rw [waitForReadyGo]
      rw [Nat.add_zero] at hok
      have hlt0 : elapsed < timeout := by omega
      simp [hlt0, hok]
  | succ n ih =>
      intro i elapsed hpre hok hlt
      rw [waitForReadyGo]
      have hlt0 : elapsed < timeout := by omega
      have hrec : waitForReadyGo probe (i + 1) (elapsed + 2) timeout = .ok true := by
        refine ih (i + 1) (elapsed + 2) ?_ ?_ (by omega)
        · intro m hm
          have e : i + 1 + m = i + (m + 1) := by omega
          rw [e]
          exact hpre (m + 1) (by omega)
        · have e : i + 1 + n = i + (n + 1) := by omega
          rw [e]
          exact hok
      rcases hpre 0 (Nat.succ_pos n) with hc | ⟨c, hb⟩
      · rw [Nat.add_zero] at hc
        simp [hlt0, hc, hrec]
      · rw [Nat.add_zero] at hb
        simp [hlt0, hb, hrec]

/-- Claim C9 (amended): `wait_for_ready` polls at a fixed 2-second
interval; it returns `true` as soon as a probe answers HTTP 200 — at the
first succeeding probe index `j`, whatever earlier non-200 or
`ConnectionError` probes preceded it, provided the 2-second cadence
reaches it before the deadline — and when every probe fails with a
non-200 status or a `ConnectionError` it returns `false` at the deadline
without raising. A probe failure outside those two classes propagates as
an exception. -/
theorem wait_for_ready_bounded_polling (probe : Nat → ProbeResult) (timeout : Nat) :
    ((∀ i, probe i = .connError ∨ ∃ c, probe i = .badStatus c) →
        wait_for_ready probe timeout = .ok false) ∧
      (∀ j, (∀ m, m < j → probe m = .connError ∨ ∃ c, probe m = .badStatus c) →
        probe j = .ok200 → 2 * j < timeout →
        wait_for_ready probe timeout = .ok true) := by
  constructor
  · intro hfail
    rw [wait_for_ready]
    suffices key : ∀ fuel i elapsed, timeout - elapsed ≤ fuel →
        waitForReadyGo probe i elapsed timeout = .ok false by
      exact key timeout 0 0 (by omega)
    intro fuel
    induction fuel with
    | zero =>
        intro i elapsed hfuel
        rw [waitForReadyGo]
        have : ¬ elapsed < timeout := by omega
        simp [this]
    | succ n ih =>
        intro i elapsed hfuel
        rw [waitForReadyGo]
        by_cases hlt : elapsed < timeout
        · rcases hfail i with hconn | ⟨c, hbad⟩
          · simp [hlt, hconn]
            exact ih (i + 1) (elapsed + 2) (by omega)
          · simp [hlt, hbad]
            exact ih (i + 1) (elapsed + 2) (by omega)
        · simp [hlt]
  · intro j hpre hok hlt
    rw [wait_for_ready]
    refine waitForReadyGo_true_at_first_ok probe timeout j 0 0 ?_ ?_ (by omega)
    · intro m hm
      rw [Nat.zero_add]
      exact hpre m hm
    · rw [Nat.zero_add]
      exact hok

/-- Witness for C9 (amended): with probes that always fail by connection
refusal, a 4-second budget returns `false`; with an endpoint that refuses
the first connection and answers HTTP 200 on the second probe, the call
returns `true`. -/
theorem wait_for_ready_bounded_polling_witness :
    wait_for_ready (fun _ => ProbeResult.connError) 4 = Except.ok false ∧
      wait_for_ready
          (fun i => if i = 0 then ProbeResult.connError else ProbeResult.ok200) 120
        = Except.ok true :=
  ⟨(wait_for_ready_bounded_polling (fun _ => ProbeResult.connError) 4).1
      (fun _ => Or.inl rfl),
    (wait_for_ready_bounded_polling
        (fun i => if i = 0 then ProbeResult.connError else ProbeResult.ok200) 120).2
      1
      (fun m hm => by
        have hm0 : m = 0 := by omega
        subst hm0
        exact Or.inl rfl)
      rfl (by omega)⟩

/-! ### Helper lemmas on the handler and the dict operations -/

/-- When validation fails, `handler` returns the validation error envelope
and performs no side effect at all. -/
theorem handler_stops_when_invalid (env : HandlerEnv) (job : Job)
    (h : (validate_input job.input).1 = false) :
    handler env job = ([("error", .str (validate_input job.input).2)], []) := by
  unfold handler
  cases hv : validate_input job.input with
  | mk b err =>
      rw [hv] at h
      simp only at h
      subst h
      simp [hv]

/-- Every envelope built by the `except` clauses is a singleton
`error`-keyed dict. -/
theorem exceptionEnvelope_shape (e : PyExc) :
    ∃ m, exceptionEnvelope e = [("error", EnvVal.str m)] := by
  unfold exceptionEnvelope
  by_cases h : isTimeoutExc e = true
  · refine ⟨"Workflow execution timed out", ?_⟩
    simp [h]
  · refine ⟨excMessage e, ?_⟩
    simp [h]

/-- An absent field is falsy. -/
theorem falsy_none : falsy none = true := rfl

/-- A string-valued field is falsy exactly when the string is empty. -/
theorem falsy_str (s : String) : falsy (some (Value.str s)) = decide (s = "") := rfl

/-- After deleting key `k`, looking `k` up yields nothing. -/
theorem getField_removeField_self (d : Dict) (k : String) :
    getField (removeField d k) k = none := by
  induction d with
  | nil => rfl
  | cons p rest ih =>
      obtain ⟨k', v⟩ := p
      by_cases h : k' = k
      · simpa [removeField, h] using ih
      · simpa [removeField, getField, h] using ih

/-- Deleting key `k` leaves every other key's lookup unchanged. -/
theorem getField_removeField_ne (d : Dict) (k k2 : String) (h : k2 ≠ k) :
    getField (removeField d k) k2 = getField d k2 := by
  induction d with
  | nil => rfl
  | cons p rest ih =>
      obtain ⟨k', v⟩ := p
      by_cases h1 : k' = k
      · subst h1
        have hne : k' ≠ k2 := fun hk => h hk.symm
        simpa [removeField, getField, hne] using ih
      · by_cases h2 : k' = k2 <;>
          simp [removeField, getField, h1, h2, h, ih]

/-! ### Claims C4, C5 and C10 -/

/-- Counterexample to claim C4: a failing job (here: validation failure on
an empty input) returns the envelope consisting solely of the `error` key —
there is no `status` field at all, so the failure envelope is not of the
form status=error plus message that the claim asserts. -/
theorem failure_envelope_lacks_status_field :
    handler stubHandlerEnv ⟨"job-1", []⟩
      = ([("error", EnvVal.str "Missing required field: workflow_type")], []) ∧
      getEnvField (handler stubHandlerEnv ⟨"job-1", []⟩).1 "status" = none := by
  constructor <;> rfl

/-- Claim C4 (amended): for every job and every behaviour of the
collaborators, `handler` returns normally (the worker does not crash) with
either the success envelope (whose `status` is `"success"`) or an envelope
that consists exactly of an `error` key carrying a message — failure
envelopes carry the message but no `status` field. -/
theorem every_failure_returns_error_envelope (env : HandlerEnv) (job : Job) :
    getEnvField (handler env job).1 "status" = some (EnvVal.str "success") ∨
      ∃ m, (handler env job).1 = [("error", EnvVal.str m)] := by
  unfold handler
  split
  · right; exact ⟨_, rfl⟩
  · split
    · right; exact exceptionEnvelope_shape _
    · split
      · right; exact exceptionEnvelope_shape _
      · split
        · right; exact ⟨_, rfl⟩
        · split
          · right; exact exceptionEnvelope_shape _
          · left; rfl

/-- Claim C5: a request whose `workflow_type` is missing or unknown, an
`image_gen` request with a missing (falsy) `prompt`, or a `face_swap`
request with a missing (falsy) `source_image` or `target_image`, is
answered with an error envelope and an empty effect trace: no template
load, no execution, no upload. -/
theorem invalid_request_has_no_side_effects (env : HandlerEnv) (job : Job)
    (h : (getField job.input "workflow_type" ≠ some (Value.str "image_gen") ∧
          getField job.input "workflow_type" ≠ some (Value.str "face_swap")) ∨
         (getField job.input "workflow_type" = some (Value.str "image_gen") ∧
          falsy (getField job.input "prompt") = true) ∨
         (getField job.input "workflow_type" = some (Value.str "face_swap") ∧
          (falsy (getField job.input "source_image") = true ∨
           falsy (getField job.input "target_image") = true))) :
    ∃ msg, handler env job = ([("error", EnvVal.str msg)], []) := by
  have hinv : (validate_input job.input).1 = false := by
    unfold validate_input
    rcases h with ⟨h1, h2⟩ | ⟨h1, h2⟩ | ⟨h1, h2 | h2⟩
    · by_cases hf : falsy (getField job.input "workflow_type") = true
      · simp [hf]
      · simp [hf, h1, h2]
    · simp [h1, falsy_str, h2]
    · simp [h1, falsy_str, h2]
    · by_cases hs : falsy (getField job.input "source_image") = true
      · simp [h1, falsy_str, hs]
      · simp [h1, falsy_str, hs, h2]
  exact ⟨(validate_input job.input).2, handler_stops_when_invalid env job hinv⟩

/-- Witness for C5: an unknown `workflow_type` is rejected with an error
envelope and no side effect on any collaborator. -/
theorem invalid_request_has_no_side_effects_witness :
    ∃ msg, handler stubHandlerEnv ⟨"j1", [("workflow_type", Value.str "video_gen")]⟩
      = ([("error", EnvVal.str msg)], []) :=
  invalid_request_has_no_side_effects stubHandlerEnv
    ⟨"j1", [("workflow_type", Value.str "video_gen")]⟩
    (Or.inl ⟨by decide, by decide⟩)

/-- Claim C10: a required field that is present but equal to the empty
string (`workflow_type`; `prompt` under `image_gen`; `source_image` or
`target_image` under `face_swap`) is rejected exactly like an absent
field: same error envelope as for the input with the key deleted, and no
side effect — validation tests Python truthiness, not key presence. -/
theorem empty_string_field_rejected_as_missing (env : HandlerEnv) (job : Job)
    (h : getField job.input "workflow_type" = some (Value.str "") ∨
         (getField job.input "workflow_type" = some (Value.str "image_gen") ∧
          getField job.input "prompt" = some (Value.str "")) ∨
         (getField job.input "workflow_type" = some (Value.str "face_swap") ∧
          getField job.input "source_image" = some (Value.str "")) ∨
         (getField job.input "workflow_type" = some (Value.str "face_swap") ∧
          getField job.input "target_image" = some (Value.str ""))) :
    ∃ k msg, getField job.input k = some (Value.str "") ∧
      handler env job = ([("error", EnvVal.str msg)], []) ∧
      handler env ⟨job.id, removeField job.input k⟩
        = ([("error", EnvVal.str msg)], []) := by
  classical
  rcases h with h1 | ⟨h1, h2⟩ | ⟨h1, h2⟩ | ⟨h1, h2⟩
  · refine ⟨"workflow_type", "Missing required field: workflow_type", h1, ?_, ?_⟩
    · have hv : validate_input job.input
          = (false, "Missing required field: workflow_type") := by
        unfold validate_input
        simp [h1, falsy_str]
      have := handler_stops_when_invalid env job (by rw [hv])
      rwa [hv] at this
    · have hv : validate_input (removeField job.input "workflow_type")
          = (false, "Missing required field: workflow_type") := by
        unfold validate_input
        simp [getField_removeField_self, falsy_none]
      have := handler_stops_when_invalid env
        ⟨job.id, removeField job.input "workflow_type"⟩ (by rw [hv])
      rwa [hv] at this
  · refine ⟨"prompt", "image_gen requires \x27prompt\x27 field", h2, ?_, ?_⟩
    · have hv : validate_input job.input
          = (false, "image_gen requires \x27prompt\x27 field") := by
        unfold validate_input
        simp [h1, h2, falsy_str]
      have := handler_stops_when_invalid env job (by rw [hv])
      rwa [hv] at this
    · have hwt : getField (removeField job.input "prompt") "workflow_type"
          = some (Value.str "image_gen") := by
        rw [getField_removeField_ne _ _ _ (by decide)]
        exact h1
      have hv : validate_input (removeField job.input "prompt")
          = (false, "image_gen requires \x27prompt\x27 field") := by
        unfold validate_input
        simp [hwt, getField_removeField_self, falsy_str, falsy_none]
      have := handler_stops_when_invalid env
        ⟨job.id, removeField job.input "prompt"⟩ (by rw [hv])
      rwa [hv] at this
  · refine ⟨"source_image", "face_swap requires \x27source_image\x27 field", h2, ?_, ?_⟩
    · have hv : validate_input job.input
          = (false, "face_swap requires \x27source_image\x27 field") := by
        unfold validate_input
        simp [h1, h2, falsy_str]
      have := handler_stops_when_invalid env job (by rw [hv])
      rwa [hv] at this
    · have hwt : getField (removeField job.input "source_image") "workflow_type"
          = some (Value.str "face_swap") := by
        rw [getField_removeField_ne _ _ _ (by decide)]
        exact h1
      have hv : validate_input (removeField job.input "source_image")
          = (false, "face_swap requires \x27source_image\x27 field") := by
        unfold validate_input
        simp [hwt, getField_removeField_self, falsy_str, falsy_none]
      have := handler_stops_when_invalid env
        ⟨job.id, removeField job.input "source_image"⟩ (by rw [hv])
      rwa [hv] at this
  · by_cases hsrc : falsy (getField job.input "source_image") = true
    · refine ⟨"target_image", "face_swap requires \x27source_image\x27 field", h2, ?_, ?_⟩
      · have hv : validate_input job.input
            = (false, "face_swap requires \x27source_image\x27 field") := by
          unfold validate_input
          simp [h1, hsrc, falsy_str]
        have := handler_stops_when_invalid env job (by rw [hv])
        rwa [hv] at this
      · have hwt : getField (removeField job.input "target_image") "workflow_type"
            = some (Value.str "face_swap") := by
          rw [getField_removeField_ne _ _ _ (by decide)]
          exact h1
        have hsrc2 : falsy (getField (removeField job.input "target_image")
            "source_image") = true := by
          rw [getField_removeField_ne _ _ _ (by decide)]
          exact hsrc
        have hv : validate_input (removeField job.input "target_image")
            = (false, "face_swap requires \x27source_image\x27 field") := by
          unfold validate_input
          simp [hwt, hsrc2, falsy_str]
        have := handler_stops_when_invalid env
          ⟨job.id, removeField job.input "target_image"⟩ (by rw [hv])
        rwa [hv] at this
    · refine ⟨"target_image", "face_swap requires \x27target_image\x27 field", h2, ?_, ?_⟩
      · have hv : validate_input job.input
            = (false, "face_swap requires \x27target_image\x27 field") := by
          unfold validate_input
          simp [h1, hsrc, h2, falsy_str]
        have := handler_stops_when_invalid env job (by rw [hv])
        rwa [hv] at this
      · have hwt : getField (removeField job.input "target_image") "workflow_type"
            = some (Value.str "face_swap") := by
          rw [getField_removeField_ne _ _ _ (by decide)]
          exact h1
        have hsrc2 : ¬ falsy (getField (removeField job.input "target_image")
            "source_image") = true := by
          rw [getField_removeField_ne _ _ _ (by decide)]
          exact hsrc
        have hv : validate_input (removeField job.input "target_image")
            = (false, "face_swap requires \x27target_image\x27 field") := by
          unfold validate_input
          simp [hwt, hsrc2, getField_removeField_self, falsy_str, falsy_none]
        have := handler_stops_when_invalid env
          ⟨job.id, removeField job.input "target_image"⟩ (by rw [hv])
        rwa [hv] at this

/-- Witness for C10: an `image_gen` request whose `prompt` is the empty
string is rejected with the same envelope as the prompt-less request. -/
theorem empty_string_field_rejected_as_missing_witness :
    ∃ k msg,
      getField [("workflow_type", Value.str "image_gen"),
                ("prompt", Value.str "")] k = some (Value.str "") ∧
        handler stubHandlerEnv
            ⟨"j2", [("workflow_type", Value.str "image_gen"),
                    ("prompt", Value.str "")]⟩
          = ([("error", EnvVal.str msg)], []) ∧
        handler stubHandlerEnv
            ⟨"j2", removeField [("workflow_type", Value.str "image_gen"),
                    ("prompt", Value.str "")] k⟩
          = ([("error", EnvVal.str msg)], []) := by
  exact empty_string_field_rejected_as_missing stubHandlerEnv
    ⟨"j2", [("workflow_type", Value.str "image_gen"), ("prompt", Value.str "")]⟩
    (Or.inr (Or.inl ⟨rfl, rfl⟩))

/-! ### Helper lemmas on workflow slot updates -/

/-- Writing a key makes its lookup return the written value. -/
theorem getField_setKV_self (d : Dict) (k : String) (v : Value) :
    getField (setKV d k v) k = some v := by
  induction d with
  | nil => simp [setKV, getField]
  | cons p rest ih =>
      obtain ⟨k', v'⟩ := p
      by_cases h : k' = k <;> simp [setKV, getField, h, ih]

/-- Writing a key leaves every other key's lookup unchanged. -/
theorem getField_setKV_ne (d : Dict) (k k2 : String) (v : Value) (h : k ≠ k2) :
    getField (setKV d k v) k2 = getField d k2 := by
  induction d with
  | nil => simp [setKV, getField, h]
  | cons p rest ih =>
      obtain ⟨k', v'⟩ := p
      by_cases h1 : k' = k
      · subst h1
        simp [setKV, getField, h]
      · by_cases h2 : k' = k2 <;>
          simp [setKV, getField, h1, h2, Ne.symm h, ih]

/-- A guarded slot write rewrites only the targeted node's inputs. -/
theorem getNode_setNodeInput_self (wf : Workflow) (n k : String) (v : Value) :
    getNode (setNodeInput wf n k v) n
      = (getNode wf n).map
          (fun node => { node with inputs := setKV node.inputs k v }) := by
  induction wf with
  | nil => rfl
  | cons p rest ih =>
      obtain ⟨m, node⟩ := p
      by_cases h : m = n <;> simp [setNodeInput, getNode, h, ih]

/-- A guarded slot write leaves every other node untouched. -/
theorem getNode_setNodeInput_ne (wf : Workflow) (n n2 k : String) (v : Value)
    (h : n ≠ n2) :
    getNode (setNodeInput wf n k v) n2 = getNode wf n2 := by
  induction wf with
  | nil => rfl
  | cons p rest ih =>
      obtain ⟨m, node⟩ := p
      by_cases h1 : m = n
      · subst h1
        simp [setNodeInput, getNode, h]
      · by_cases h2 : m = n2 <;>
          simp [setNodeInput, getNode, h1, h2, Ne.symm h, ih]

/-- Writing a slot of a present node makes that slot read back the value. -/
theorem getNodeInput_set_self (wf : Workflow) (n k : String) (v : Value)
    (h : containsNode wf n = true) :
    getNodeInput (setNodeInput wf n k v) n k = some v := by
  unfold containsNode at h
  unfold getNodeInput
  rw [getNode_setNodeInput_self]
  cases hn : getNode wf n with
  | none => rw [hn] at h; simp at h
  | some node => simp [getField_setKV_self]

/-- Writing one slot leaves every other (node, key) slot unchanged. -/
theorem getNodeInput_set_other (wf : Workflow) (n k n2 k2 : String) (v : Value)
    (h : n ≠ n2 ∨ k ≠ k2) :
    getNodeInput (setNodeInput wf n k v) n2 k2 = getNodeInput wf n2 k2 := by
  by_cases hn : n = n2
  · subst hn
    have hk : k ≠ k2 := h.resolve_left (by simp)
    unfold getNodeInput
    rw [getNode_setNodeInput_self]
    cases hg : getNode wf n with
    | none => simp
    | some node => simp [getField_setKV_ne _ _ _ _ hk]
  · unfold getNodeInput
    rw [getNode_setNodeInput_ne _ _ _ _ _ hn]

/-- Slot writes preserve which node ids the graph contains. -/
theorem containsNode_setNodeInput (wf : Workflow) (n k n2 : String) (v : Value) :
    containsNode (setNodeInput wf n k v) n2 = containsNode wf n2 := by
  unfold containsNode
  by_cases h : n = n2
  · subst h
    rw [getNode_setNodeInput_self]
    cases getNode wf n <;> simp
  · rw [getNode_setNodeInput_ne _ _ _ _ _ h]

/-! ### Claim C6 -/

/-- Claim C6: for a request that carries a `prompt` and omits every
optional field, `_inject_image_gen` returns normally and fills the coded
defaults into the template's slots: node `5` gets width 1280 and height
720, node `6` gets steps 25, cfg 7.5, and a seed in `[0, 2^32)` (the
bound `random.randint(0, 2**32 - 1)` guarantees for its draw). -/
theorem image_gen_defaults_filled (randSeed : Nat) (workflow : Workflow)
    (params : Dict)
    (hseed : randSeed < 2 ^ 32)
    (hprompt : ∃ p, getField params "prompt" = some p)
    (hw : getField params "width" = none)
    (hh : getField params "height" = none)
    (hs : getField params "seed" = none)
    (hsteps : getField params "steps" = none)
    (hcfg : getField params "cfg_scale" = none)
    (h5 : containsNode workflow "5" = true)
    (h6 : containsNode workflow "6" = true) :
    ∃ wf, injectImageGen randSeed workflow params = .ok wf ∧
      getNodeInput wf "5" "width" = some (.num 1280) ∧
      getNodeInput wf "5" "height" = some (.num 720) ∧
      getNodeInput wf "6" "steps" = some (.num 25) ∧
      getNodeInput wf "6" "cfg" = some (.num (15 / 2 : Rat)) ∧
      ∃ s : Nat, getNodeInput wf "6" "seed" = some (.num (s : Rat)) ∧
        s < 2 ^ 32 := by
  obtain ⟨p, hp⟩ := hprompt
  refine ⟨setNodeInput (setNodeInput (setNodeInput (setNodeInput (setNodeInput
      (setNodeInput (setNodeInput (setNodeInput workflow "3" "text" p)
        "4" "text" ((getField params "negative_prompt").getD
          (Value.str "blurry, low quality, watermark, text")))
        "5" "width" (Value.num 1280)) "5" "height" (Value.num 720))
      "5" "batch_size" (Value.num 1)) "6" "seed" (Value.num (randSeed : Rat)))
      "6" "steps" (Value.num 25)) "6" "cfg" (Value.num (15 / 2 : Rat)),
    ?_, ?_, ?_, ?_, ?_, ?_⟩
  · simp only [injectImageGen, hp, hw, hh, hs, hsteps, hcfg,
      Option.getD_none, Option.getD_some]
  · rw [getNodeInput_set_other _ _ _ _ _ _ (Or.inl (by decide)),
      getNodeInput_set_other _ _ _ _ _ _ (Or.inl (by decide)),
      getNodeInput_set_other _ _ _ _ _ _ (Or.inl (by decide)),
      getNodeInput_set_other _ _ _ _ _ _ (Or.inr (by decide)),
      getNodeInput_set_other _ _ _ _ _ _ (Or.inr (by decide)),
      getNodeInput_set_self]
    rw [containsNode_setNodeInput, containsNode_setNodeInput]
    exact h5
  · rw [getNodeInput_set_other _ _ _ _ _ _ (Or.inl (by decide)),
      getNodeInput_set_other _ _ _ _ _ _ (Or.inl (by decide)),
      getNodeInput_set_other _ _ _ _ _ _ (Or.inl (by decide)),
      getNodeInput_set_other _ _ _ _ _ _ (Or.inr (by decide)),
      getNodeInput_set_self]
    rw [containsNode_setNodeInput, containsNode_setNodeInput,
      containsNode_setNodeInput]
    exact h5
  · rw [getNodeInput_set_other _ _ _ _ _ _ (Or.inr (by decide)),
      getNodeInput_set_self]
    rw [containsNode_setNodeInput, containsNode_setNodeInput,
      containsNode_setNodeInput, containsNode_setNodeInput,
      containsNode_setNodeInput, containsNode_setNodeInput]
    exact h6
  · rw [getNodeInput_set_self]
    rw [containsNode_setNodeInput, containsNode_setNodeInput,
      containsNode_setNodeInput, containsNode_setNodeInput,
      containsNode_setNodeInput, containsNode_setNodeInput,
      containsNode_setNodeInput]
    exact h6
  · refine ⟨randSeed, ?_, hseed⟩
    rw [getNodeInput_set_other _ _ _ _ _ _ (Or.inr (by decide)),
      getNodeInput_set_other _ _ _ _ _ _ (Or.inr (by decide)),
      getNodeInput_set_self]
    rw [containsNode_setNodeInput, containsNode_setNodeInput,
      containsNode_setNodeInput, containsNode_setNodeInput,
      containsNode_setNodeInput]
    exact h6

/-- Witness for C6: a two-node template and the request consisting only of
a prompt: the injected graph carries all coded defaults and the drawn
seed 42. -/
theorem image_gen_defaults_filled_witness :
    ∃ wf,
      injectImageGen 42
          [("5", ⟨"EmptyLatentImage", [("width", Value.num 512)]⟩),
           ("6", ⟨"KSampler", []⟩)]
          [("prompt", Value.str "a cat")] = .ok wf ∧
        getNodeInput wf "5" "width" = some (.num 1280) ∧
        getNodeInput wf "5" "height" = some (.num 720) ∧
        getNodeInput wf "6" "steps" = some (.num 25) ∧
        getNodeInput wf "6" "cfg" = some (.num (15 / 2 : Rat)) ∧
        ∃ s : Nat, getNodeInput wf "6" "seed" = some (.num (s : Rat)) ∧
          s < 2 ^ 32 :=
  image_gen_defaults_filled 42
    [("5", ⟨"EmptyLatentImage", [("width", Value.num 512)]⟩),
     ("6", ⟨"KSampler", []⟩)]
    [("prompt", Value.str "a cat")]
    (by norm_num) ⟨Value.str "a cat", rfl⟩ rfl rfl rfl rfl rfl rfl rfl

end Pipeline
